import Mathlib

/-!
# Verification of the pytorch-tutorials repository

Shallow embedding of the code defined in the two notebooks
`01_learning_pytorch/02_autograd_tutorial.ipynb` and
`04_text/04_transformer_tutorial.ipynb`, together with theorems settling
the claims about that code.

Tensors are modelled as size-annotated matrices over exact rationals
(`Mat`); the float value `-inf` used by the attention mask is modelled by
the two-constructor type `FVal`.  External library calls (embedding,
transformer encoder, decoder, criterion, optimizer) are parameters of the
embedded functions; the code written in the notebooks themselves is
translated line by line.
-/

/-- A float value as used by the attention mask: either a finite value
(modelled exactly as a rational) or negative infinity, produced by
`float('-inf')`. -/
inductive FVal where
  | fin : ℚ → FVal
  | negInf : FVal
deriving DecidableEq

/-- A 2-D tensor: row count, column count, and an entry function. -/
structure Mat (α : Type) where
  rows : Nat
  cols : Nat
  entry : Nat → Nat → α

/-- `torch.ones(r, c)`: the all-ones matrix. -/
def onesM (r c : Nat) : Mat ℚ := ⟨r, c, fun _ _ => 1⟩

/-- `torch.triu(m)`: keeps the entries on and above the main diagonal
(column index at least row index), zeroes the rest. -/
def triuM (m : Mat ℚ) : Mat ℚ :=
  ⟨m.rows, m.cols, fun i j => if i ≤ j then m.entry i j else 0⟩

/-- `m == 1` on a float tensor: entrywise comparison with 1, giving a
boolean tensor. -/
def eqOneM (m : Mat ℚ) : Mat Bool :=
  ⟨m.rows, m.cols, fun i j => decide (m.entry i j = 1)⟩

/-- `m.transpose(0, 1)` / `m.t()`: swap the two dimensions. -/
def transposeM {α : Type} (m : Mat α) : Mat α :=
  ⟨m.cols, m.rows, fun i j => m.entry j i⟩

/-- `m.float()` on a boolean tensor: `True ↦ 1.0`, `False ↦ 0.0`. -/
def floatM (m : Mat Bool) : Mat FVal :=
  ⟨m.rows, m.cols, fun i j => if m.entry i j then FVal.fin 1 else FVal.fin 0⟩

/-- `m == 0` on a boolean tensor: `False` compares equal to `0`. -/
def eqZeroB (m : Mat Bool) : Mat Bool :=
  ⟨m.rows, m.cols, fun i j => !(m.entry i j)⟩

/-- `m == 1` on a boolean tensor: `True` compares equal to `1`. -/
def eqOneB (m : Mat Bool) : Mat Bool :=
  ⟨m.rows, m.cols, fun i j => m.entry i j⟩

/-- `m.masked_fill(cond, v)`: replace the entries where `cond` holds by
`v`, keep the rest. -/
def maskedFillM (m : Mat FVal) (cond : Mat Bool) (v : FVal) : Mat FVal :=
  ⟨m.rows, m.cols, fun i j => if cond.entry i j then v else m.entry i j⟩

/-- `TransformerModel._generate_square_subsequent_mask(sz)`, translated
from the source:
`mask = (torch.triu(torch.ones(sz, sz)) == 1).transpose(0, 1)` then
`mask = mask.float().masked_fill(mask == 0, float('-inf')).masked_fill(mask == 1, float(0.0))`.
In the second line every occurrence of `mask` still denotes the boolean
tensor of the first line, because Python evaluates the whole right-hand
side before rebinding the name. -/
def generate_square_subsequent_mask (sz : Nat) : Mat FVal :=
  let mask := transposeM (eqOneM (triuM (onesM sz sz)))
  maskedFillM (maskedFillM (floatM mask) (eqZeroB mask) FVal.negInf)
    (eqOneB mask) (FVal.fin 0)

/-- C5: for every `sz`, `_generate_square_subsequent_mask sz` is a
`sz × sz` matrix whose entry at row `i`, column `j` is `0` when `j ≤ i`
and `-inf` when `j > i`: each position may attend only to itself and
earlier positions. -/
theorem C5_generate_mask_causal (sz i j : Nat) (hi : i < sz) (hj : j < sz) :
    (generate_square_subsequent_mask sz).rows = sz ∧
    (generate_square_subsequent_mask sz).cols = sz ∧
    (generate_square_subsequent_mask sz).entry i j =
      (if j ≤ i then FVal.fin 0 else FVal.negInf) := by
  refine ⟨rfl, rfl, ?_⟩
  by_cases h : j ≤ i <;>
    simp [generate_square_subsequent_mask, maskedFillM, eqOneB, eqZeroB,
      floatM, transposeM, eqOneM, triuM, onesM, h]

/-- Witness for C5 at `sz = 2`, `i = 1`, `j = 0`: the subdiagonal entry
is `0`. -/
theorem C5_generate_mask_causal_witness :
    (generate_square_subsequent_mask 2).rows = 2 ∧
    (generate_square_subsequent_mask 2).cols = 2 ∧
    (generate_square_subsequent_mask 2).entry 1 0 =
      (if 0 ≤ 1 then FVal.fin 0 else FVal.negInf) :=
  C5_generate_mask_causal 2 1 0 (by decide) (by decide)

/-- `data.narrow(0, start, len)`: the slice of `len` elements of a 1-D
tensor beginning at `start`. -/
def narrow1 (data : List Nat) (start len : Nat) : List Nat :=
  (data.drop start).take len

/-- `d.view(r, -1)` on a 1-D tensor `d`: reinterpret the `d.length`
elements as an `r × (d.length / r)` matrix in row-major order. -/
def view2 (d : List Nat) (r : Nat) : Mat Nat :=
  ⟨r, d.length / r, fun i j => d.getD (i * (d.length / r) + j) 0⟩

/-- `batchify(data, bsz)`, translated from the source.  The external
`TEXT.numericalize` call that turns the raw text into the 1-D tensor of
token indices is the function's input here; `contiguous()` and
`to(device)` do not change the entries:
`nbatch = data.size(0) // bsz`;
`data = data.narrow(0, 0, nbatch * bsz)`;
`data = data.view(bsz, -1).t().contiguous()`. -/
def batchify (data : List Nat) (bsz : Nat) : Mat Nat :=
  let nbatch := data.length / bsz
  let d := narrow1 data 0 (nbatch * bsz)
  transposeM (view2 d bsz)

/-- The `take` of `narrow1 data 0 m` reads back the original list below
index `m`. -/
theorem narrow1_getD (data : List Nat) (m k : Nat) (hk : k < m) :
    (narrow1 data 0 m).getD k 0 = data.getD k 0 := by
  simp only [narrow1, List.drop_zero, List.getD_eq_getElem?_getD]
  rw [List.getElem?_take_of_lt hk]

/-- C4: for a token sequence of length `n` and a batch size `bsz` with
`1 ≤ bsz ≤ n`, `batchify` returns an `(n / bsz) × bsz` matrix whose
column `j` holds, in order, the contiguous chunk of input tokens at
positions `j * (n / bsz)` through `(j + 1) * (n / bsz) - 1`; every entry
is read from a position below `n - n % bsz`, so the final `n % bsz`
tokens of the input appear nowhere in the result. -/
theorem C4_batchify_shape_and_columns (data : List Nat) (bsz : Nat)
    (hb : 1 ≤ bsz) (hbn : bsz ≤ data.length) :
    (batchify data bsz).rows = data.length / bsz ∧
    (batchify data bsz).cols = bsz ∧
    ∀ i j, i < data.length / bsz → j < bsz →
      (batchify data bsz).entry i j =
        data.getD (j * (data.length / bsz) + i) 0 ∧
      j * (data.length / bsz) + i < data.length - data.length % bsz := by
  have hlen : (narrow1 data 0 (data.length / bsz * bsz)).length =
      data.length / bsz * bsz := by
    simp only [narrow1, List.drop_zero, List.length_take]
    have := Nat.div_mul_le_self data.length bsz
    omega
  have hdiv : (narrow1 data 0 (data.length / bsz * bsz)).length / bsz =
      data.length / bsz := by
    rw [hlen, Nat.mul_div_cancel _ (by omega : 0 < bsz)]
  refine ⟨?_, ?_, ?_⟩
  · simp only [batchify, transposeM, view2]
    exact hdiv
  · rfl
  · intro i j hi hj
    have hidx : j * (data.length / bsz) + i < data.length / bsz * bsz := by
      have h1 : j * (data.length / bsz) + i <
          (j + 1) * (data.length / bsz) := by
        rw [Nat.add_mul, Nat.one_mul]; omega
      have h2 : (j + 1) * (data.length / bsz) ≤ bsz * (data.length / bsz) :=
        Nat.mul_le_mul_right _ (by omega)
      calc j * (data.length / bsz) + i
          < (j + 1) * (data.length / bsz) := h1
        _ ≤ bsz * (data.length / bsz) := h2
        _ = data.length / bsz * bsz := Nat.mul_comm _ _
    have hmod : data.length / bsz * bsz + data.length % bsz = data.length :=
      Nat.div_add_mod' data.length bsz
    constructor
    · show (view2 (narrow1 data 0 (data.length / bsz * bsz)) bsz).entry j i =
        data.getD (j * (data.length / bsz) + i) 0
      simp only [view2, hdiv]
      exact narrow1_getD data (data.length / bsz * bsz)
        (j * (data.length / bsz) + i) hidx
    · omega

/-- Witness for C4 on the 5-token input `[10, 11, 12, 13, 14]` with
batch size 2: the result is the `2 × 2` matrix `[[10, 12], [11, 13]]`
and the trailing token `14` is dropped. -/
theorem C4_batchify_witness :
    (batchify [10, 11, 12, 13, 14] 2).rows = 2 ∧
    (batchify [10, 11, 12, 13, 14] 2).cols = 2 ∧
    (batchify [10, 11, 12, 13, 14] 2).entry 0 1 =
      [10, 11, 12, 13, 14].getD (1 * 2 + 0) 0 ∧
    1 * 2 + 0 < 5 - 5 % 2 := by
  have h := C4_batchify_shape_and_columns [10, 11, 12, 13, 14] 2
    (by decide) (by decide)
  have h01 := h.2.2 0 1 (by decide) (by decide)
  exact ⟨h.1, h.2.1, h01.1, h01.2⟩

/-- The fields of a `TransformerModel` object that the notebook's class
assigns in `__init__`.  The external module objects (`pos_encoder`,
`transformer_encoder`, `encoder`, `decoder`) are library-owned state; the
fields written directly by the repository's code are `model_type`,
`src_mask` and `ninp`. -/
structure TMState where
  model_type : String
  src_mask : Option (Mat FVal)
  ninp : Nat

/-- The state of a freshly constructed model: `__init__` sets
`self.model_type = 'Transformer'` and `self.src_mask = None`. -/
def tmInit (ninp : Nat) : TMState :=
  { model_type := "Transformer", src_mask := none, ninp := ninp }

/-- The condition of `forward`'s cache check:
`self.src_mask is None or self.src_mask.size(0) != src.size(0)`. -/
def maskMismatch (st : TMState) (srcLen : Nat) : Bool :=
  match st.src_mask with
  | none => true
  | some m => decide (m.rows ≠ srcLen)

/-- The external library modules `forward` calls, as opaque functions on
an abstract tensor type `V`: the `nn.Embedding` lookup `self.encoder`,
the scaling `* math.sqrt(self.ninp)`, the `nn.TransformerEncoder`
(which also receives the additive attention mask), and the `nn.Linear`
decoder. -/
structure TMExternals (V : Type) where
  encoder : V → V
  scale : V → V
  transformer_encoder : V → Mat FVal → V
  decoder : V → V

/-- The state of the model object after `forward`'s cache check:
`if self.src_mask is None or self.src_mask.size(0) != src.size(0):`
`    self.src_mask = self._generate_square_subsequent_mask(src.size(0))`. -/
def tmUpdatedState (st : TMState) (srcLen : Nat) : TMState :=
  if maskMismatch st srcLen then
    { st with src_mask := some (generate_square_subsequent_mask srcLen) }
  else st

/-- The mask `forward` passes to the transformer encoder: the value of
`self.src_mask` after the cache check (always present at that point). -/
def tmMask (st : TMState) (srcLen : Nat) : Mat FVal :=
  (tmUpdatedState st srcLen).src_mask.getD
    (generate_square_subsequent_mask srcLen)

/-- `TransformerModel.forward(src)`, translated from the source.  `st` is
the object's state, `srcLen` is `src.size(0)`, `posEnc` is the
`self.pos_encoder` module (the repository-defined `PositionalEncoding`).
Returns the state after the call together with the output:
`if self.src_mask is None or self.src_mask.size(0) != src.size(0):`
`    self.src_mask = self._generate_square_subsequent_mask(src.size(0))`;
`src = self.encoder(src) * math.sqrt(self.ninp)`;
`src = self.pos_encoder(src)`;
`output = self.transformer_encoder(src, self.src_mask)`;
`output = self.decoder(output)`. -/
def tmForward {V : Type} (ext : TMExternals V) (posEnc : V → V)
    (st : TMState) (srcLen : Nat) (src : V) : TMState × V :=
  (tmUpdatedState st srcLen, ext.decoder (ext.transformer_encoder
    (posEnc (ext.scale (ext.encoder src))) (tmMask st srcLen)))

/-- Identity instantiation of the external modules over `V = Nat`, used
to evaluate the embedded `forward` at concrete inputs. -/
def tmExtId : TMExternals Nat :=
  { encoder := id, scale := id, transformer_encoder := fun v _ => v,
    decoder := id }

/-- C1 counterexample: on a freshly constructed model (`src_mask` is
`None`) the very first call of `forward` writes the `src_mask` field —
it is `None` before the call and a mask afterwards — so `forward` does
not leave every field of the model object unchanged. -/
theorem C1_forward_writes_src_mask :
    (tmInit 4).src_mask.isSome = false ∧
    ((tmForward tmExtId id (tmInit 4) 2 0).fst).src_mask.isSome = true :=
  ⟨rfl, rfl⟩

/-- C1 (amended): `forward` leaves `model_type` and `ninp` unchanged and
writes only `src_mask`: when the cached mask is absent or its size
differs from `src.size(0)` it stores the freshly generated square
subsequent mask of size `src.size(0)`; otherwise it changes no field at
all. -/
theorem C1_forward_frame (V : Type) (ext : TMExternals V) (posEnc : V → V)
    (st : TMState) (srcLen : Nat) (src : V) :
    ((tmForward ext posEnc st srcLen src).fst).model_type = st.model_type ∧
    ((tmForward ext posEnc st srcLen src).fst).ninp = st.ninp ∧
    (maskMismatch st srcLen = false →
      (tmForward ext posEnc st srcLen src).fst = st) ∧
    (maskMismatch st srcLen = true →
      ((tmForward ext posEnc st srcLen src).fst).src_mask =
        some (generate_square_subsequent_mask srcLen)) := by
  by_cases h : maskMismatch st srcLen <;>
    simp [tmForward, tmUpdatedState, h]

/-- Witness for C1 (amended) at a fresh model and `src.size(0) = 2`:
the mismatch branch applies and afterwards `src_mask` holds the freshly
generated mask of size 2. -/
theorem C1_forward_frame_witness :
    ((tmForward tmExtId id (tmInit 4) 2 0).fst).src_mask =
      some (generate_square_subsequent_mask 2) :=
  (C1_forward_frame Nat tmExtId id (tmInit 4) 2 0).2.2.2 rfl

/-- C7 counterexample: with every external module fixed (to identities),
replacing the repository-defined positional-encoding function `id` by
`Nat.succ` changes the output of `forward`, so `forward` does not factor
only through the external library modules: it invokes the
repository-defined `PositionalEncoding`. -/
theorem C7_forward_uses_pos_encoder :
    (tmForward tmExtId id (tmInit 4) 1 0).snd ≠
      (tmForward tmExtId Nat.succ (tmInit 4) 1 0).snd := by
  decide

/-- C7 (amended): `TransformerModel` contains and invokes the
repository-defined `PositionalEncoding` — the one composition of
repository-defined components: with the external modules held fixed and
injective where applied, two positional-encoding functions that differ
on the scaled embedding of the input give different `forward` outputs. -/
theorem C7_forward_depends_on_pos_encoder (V : Type) (ext : TMExternals V)
    (p₁ p₂ : V → V) (st : TMState) (srcLen : Nat) (src : V)
    (hdec : Function.Injective ext.decoder)
    (henc : ∀ m : Mat FVal,
      Function.Injective (fun v => ext.transformer_encoder v m))
    (hp : p₁ (ext.scale (ext.encoder src)) ≠ p₂ (ext.scale (ext.encoder src))) :
    (tmForward ext p₁ st srcLen src).snd ≠
      (tmForward ext p₂ st srcLen src).snd := by
  simp only [tmForward]
  intro h
  exact hp (henc _ (hdec h))

/-- Witness for C7 (amended) with identity externals over `Nat`,
positional encodings `Nat.succ` and `fun v => v + 5`, and input `3`. -/
theorem C7_forward_depends_on_pos_encoder_witness :
    (tmForward tmExtId Nat.succ (tmInit 4) 2 3).snd ≠
      (tmForward tmExtId (fun v => v + 5) (tmInit 4) 2 3).snd :=
  C7_forward_depends_on_pos_encoder Nat tmExtId Nat.succ (fun v => v + 5)
    (tmInit 4) 2 3 (fun _ _ h => h) (fun _ _ _ h => h) (by decide)

/-- `float("inf")` together with the finite losses it is compared
against: the initial value of `best_val_loss`. -/
inductive RInf where
  | fin : ℚ → RInf
  | inf : RInf
deriving DecidableEq

/-- The comparison `val_loss < best_val_loss` of the epoch loop:
everything finite is below `float("inf")`. -/
def ltRInf (q : ℚ) : RInf → Bool
  | RInf.inf => true
  | RInf.fin r => decide (q < r)

/-- The variables of the notebook's epoch loop over a model state space
`σ`.  There is a single model object, mutated in place by `train()`
(`optimizer.step()` updates its parameters); `best_model = model` only
rebinds a reference to that same object, so the loop state records the
object's current state plus whether `best_model` has been pointed at it
(it starts as `None`). -/
structure EpochSt (σ : Type) where
  model : σ
  best_val_loss : RInf
  best_model_set : Bool

/-- One iteration of the notebook's epoch loop:
`train()` (mutates the model in place), `val_loss = evaluate(model,
val_data)`, and
`if val_loss < best_val_loss: best_val_loss = val_loss; best_model = model`.
`scheduler.step()` and the prints touch no loop variable modelled here. -/
def epochBody {σ : Type} (trainStep : σ → σ) (evalLoss : σ → ℚ)
    (st : EpochSt σ) : EpochSt σ :=
  let m := trainStep st.model
  let v := evalLoss m
  if ltRInf v st.best_val_loss then
    { model := m, best_val_loss := RInf.fin v, best_model_set := true }
  else
    { model := m, best_val_loss := st.best_val_loss,
      best_model_set := st.best_model_set }

/-- `for epoch in range(1, epochs + 1): ...`: iterate the epoch body. -/
def runEpochs {σ : Type} (trainStep : σ → σ) (evalLoss : σ → ℚ) :
    Nat → EpochSt σ → EpochSt σ
  | 0, st => st
  | n + 1, st => runEpochs trainStep evalLoss n
      (epochBody trainStep evalLoss st)

/-- The state before the loop:
`best_val_loss = float("inf")`, `best_model = None`. -/
def epochInit {σ : Type} (m0 : σ) : EpochSt σ :=
  { model := m0, best_val_loss := RInf.inf, best_model_set := false }

/-- Dereferencing `best_model` after the loop: it is `None` if never
assigned, and otherwise it aliases the single in-place-mutated model
object, so it denotes the model's final state. -/
def bestModelRef {σ : Type} (st : EpochSt σ) : Option σ :=
  if st.best_model_set then some st.model else none

/-- A concrete training step: model states are counted `0, 1, 2, …`. -/
def demoTrainStep : Nat → Nat := Nat.succ

/-- A concrete validation loss: state `1` has loss `1`, every other
state has loss `2`, so validation worsens in the second epoch. -/
def demoEvalLoss (m : Nat) : ℚ := if m = 1 then 1 else 2

/-- C2 at the failing input (two epochs, per-epoch validation losses
`1` then `2`): `best_val_loss` does end at the minimum `1`, but
`best_model` dereferences to the final model state `2`, whose validation
loss is `2 ≠ 1` — `best_model = model` aliases the in-place-mutated
object instead of saving the state that produced the minimum, so
evaluating `best_model` does not yield `best_val_loss`. -/
theorem C2_best_model_aliases_final_model :
    demoEvalLoss (demoTrainStep 0) = 1 ∧
    demoEvalLoss (demoTrainStep (demoTrainStep 0)) = 2 ∧
    (runEpochs demoTrainStep demoEvalLoss 2 (epochInit 0)).best_val_loss =
      RInf.fin 1 ∧
    bestModelRef (runEpochs demoTrainStep demoEvalLoss 2 (epochInit 0)) =
      some 2 ∧
    demoEvalLoss 2 ≠ (1 : ℚ) := by
  refine ⟨by decide, by decide, by decide, by decide, by decide⟩

/-- A `2 × 2` tensor of exact values, as used by the autograd example.
Every value arising in that example (`1`, `3`, `27`, `4.5`) is a dyadic
rational on which float arithmetic is exact. -/
structure M22 where
  e00 : ℚ
  e01 : ℚ
  e10 : ℚ
  e11 : ℚ
deriving DecidableEq

/-- `torch.ones(2, 2)`. -/
def ones22 : M22 := ⟨1, 1, 1, 1⟩

/-- Elementwise tensor-plus-scalar, `x + 2`. -/
def addC (m : M22) (c : ℚ) : M22 :=
  ⟨m.e00 + c, m.e01 + c, m.e10 + c, m.e11 + c⟩

/-- Elementwise tensor product, `y * y`. -/
def mulE (m n : M22) : M22 :=
  ⟨m.e00 * n.e00, m.e01 * n.e01, m.e10 * n.e10, m.e11 * n.e11⟩

/-- Tensor-times-scalar, `(y * y) * 3`. -/
def smulC (c : ℚ) (m : M22) : M22 :=
  ⟨c * m.e00, c * m.e01, c * m.e10, c * m.e11⟩

/-- `z.mean()`. -/
def mean22 (m : M22) : ℚ := (m.e00 + m.e01 + m.e10 + m.e11) / 4

/-- The library's reverse-mode rule for `mean`: each entry receives a
quarter of the output gradient. -/
def meanBackward (gout : ℚ) : M22 := ⟨gout / 4, gout / 4, gout / 4, gout / 4⟩

/-- The library's reverse-mode rule for scalar multiplication. -/
def smulBackward (c : ℚ) (g : M22) : M22 := smulC c g

/-- The library's reverse-mode rule for the elementwise square `y * y`
(both factors are the same tensor, so both product-rule branches
accumulate into `y`'s gradient): `2 * y * g`. -/
def mulSelfBackward (y g : M22) : M22 :=
  ⟨2 * y.e00 * g.e00, 2 * y.e01 * g.e01, 2 * y.e10 * g.e10,
    2 * y.e11 * g.e11⟩

/-- One run of the autograd-example cells, translated from the source:
`x = torch.ones(2, 2, requires_grad=True)`; `y = x + 2`;
`z = y * y * 3`; `out = z.mean()`; `out.backward()`; `print(x.grad)`.
Returns the printed `x.grad`.  The parameter is the state of the
library's random number generator at the start of the run: none of the
executed operations consults it (`torch.ones` is deterministic and no
sampling, dropout, or data-dependent nondeterminism occurs), so the run
is a function that ignores it. -/
def autogradRun (rngSeed : Nat) : M22 :=
  let x := ones22
  let y := addC x 2
  let z := smulC 3 (mulE y y)
  let _out := mean22 z
  let gz := meanBackward 1
  let gy := mulSelfBackward y (smulBackward 3 gz)
  gy

/-- C3 counterexample: the autograd example's printed gradient is not a
stochastic artifact — no two runs of that code can print different
values, refuting the claim that the code does not determine a single
fixed value for `x.grad`. -/
theorem C3_autograd_example_deterministic :
    ¬ ∃ s₁ s₂ : Nat, autogradRun s₁ ≠ autogradRun s₂ := by
  rintro ⟨s₁, s₂, h⟩
  exact h rfl

/-- C3 (amended): the autograd example is deterministic — every run,
whatever the library's random-number-generator state, prints the same
gradient, with value `4.5` in each of the four entries
(`d out / d x = 3 (x + 2) / 2 = 4.5` at `x = 1`). -/
theorem C3_autograd_grad_value (s : Nat) :
    autogradRun s = ⟨9 / 2, 9 / 2, 9 / 2, 9 / 2⟩ := by
  simp only [autogradRun, ones22, addC, mulE, smulC, mean22, meanBackward,
    smulBackward, mulSelfBackward, M22.mk.injEq]
  norm_num

/-- Witness for C3 (amended) at the random-number-generator state `0`. -/
theorem C3_autograd_grad_value_witness :
    autogradRun 0 = ⟨9 / 2, 9 / 2, 9 / 2, 9 / 2⟩ :=
  C3_autograd_grad_value 0

/-- The notebook's global `bptt = 35`. -/
def bpttC : Nat := 35

/-- Python `range(start, stop, step)` for a positive step: the numbers
`start, start + step, …` below `stop`. -/
def rangeStep (start stop step : Nat) : List Nat :=
  List.range' start ((stop - start + step - 1) / step) step

/-- `get_batch(source, i)`, translated from the source; `source` is the
batchified data, modelled as its list of rows:
`seq_len = min(bptt, len(source) - 1 - i)`;
`data = source[i:i+seq_len]`; `target = source[i+1:i+1+seq_len]`.
The `.view(-1)` flattening of `target` rearranges no tokens across rows,
so the target keeps its row list here. -/
def get_batch {V : Type} (source : List V) (i : Nat) : List V × List V :=
  let seq_len := min bpttC (source.length - 1 - i)
  ((source.drop i).take seq_len, (source.drop (i + 1)).take seq_len)

/-- The iteration starts of the loops in `train` and `evaluate`:
`range(0, data_source.size(0) - 1, bptt)`. -/
def evalIdxs (n : Nat) : List Nat := rangeStep 0 (n - 1) bpttC

/-- `evaluate(eval_model, data_source)`, translated from the source with
the external calls — the model application and the `criterion` loss —
as parameters:
`total_loss = 0.`;
`for i in range(0, data_source.size(0) - 1, bptt):`
`    data, targets = get_batch(data_source, i)`;
`    output = eval_model(data)`;
`    total_loss += len(data) * criterion(output_flat, targets).item()`;
`return total_loss / (len(data_source) - 1)`. -/
def evaluateM {V : Type} (eval_model : List V → List V)
    (crit : List V → List V → ℚ) (data_source : List V) : ℚ :=
  let total := (evalIdxs data_source.length).foldl
    (fun acc i =>
      let db := get_batch data_source i
      acc + ((db.1.length : ℚ)) * crit (eval_model db.1) db.2) 0
  total / ((data_source.length : ℚ) - 1)

/-- The values returned by the external `criterion` calls during one run
of `evaluate`, in iteration order. -/
def evalCritValues {V : Type} (eval_model : List V → List V)
    (crit : List V → List V → ℚ) (data_source : List V) : List ℚ :=
  (evalIdxs data_source.length).map (fun i =>
    crit (eval_model (get_batch data_source i).1) (get_batch data_source i).2)

/-- The per-iteration batch lengths `len(data)` of one run of
`evaluate`, in iteration order. -/
def evalBatchLens {V : Type} (data_source : List V) : List ℚ :=
  (evalIdxs data_source.length).map (fun i =>
    ((get_batch data_source i).1.length : ℚ))

/-- A concrete criterion for evaluating the embedding: loss `0` when the
first target row is at most `1`, loss `1` otherwise. -/
def demoCrit : List Nat → List Nat → ℚ :=
  fun _ tg => if tg.headD 0 ≤ 1 then 0 else 1

/-- C8 counterexample: `evaluate` is not a direct pass-through of the
external library calls.  On a 71-row data source it makes two criterion
calls, returning `0` and `1`, and returns `1/2` — a value produced by
repository-side arithmetic (the length-weighted average) that equals
none of the external calls' results. -/
theorem C8_evaluate_not_passthrough :
    evalCritValues id demoCrit (List.range 71) = [0, 1] ∧
    evaluateM id demoCrit (List.range 71) = 1 / 2 ∧
    evaluateM id demoCrit (List.range 71) ∉
      evalCritValues id demoCrit (List.range 71) := by
  have hidx : evalIdxs 71 = [0, 35] := by decide
  have hc0 : demoCrit (get_batch (List.range 71) 0).1
      (get_batch (List.range 71) 0).2 = 0 := by decide
  have hc35 : demoCrit (get_batch (List.range 71) 35).1
      (get_batch (List.range 71) 35).2 = 1 := by decide
  have hl0 : (get_batch (List.range 71) 0).1.length = 35 := by decide
  have hl35 : (get_batch (List.range 71) 35).1.length = 35 := by decide
  have hvals : evalCritValues id demoCrit (List.range 71) = [0, 1] := by
    simp only [evalCritValues, List.length_range, hidx, List.map_cons,
      List.map_nil, id_eq, hc0, hc35]
  have hval : evaluateM id demoCrit (List.range 71) = 1 / 2 := by
    simp only [evaluateM, List.length_range, hidx, List.foldl_cons,
      List.foldl_nil, id_eq, hc0, hc35, hl0, hl35]
    norm_num
  refine ⟨hvals, hval, ?_⟩
  rw [hval, hvals]
  norm_num

/-- `batchify` with each external library call as a fallible parameter
(`TEXT.numericalize`, `narrow`, `view`, `t`/`contiguous`, `to(device)`),
sequenced exactly as in the source.  The repository code between the
calls contains no `try`/`except`. -/
def batchifyE {ε τ α β : Type} (numericalize : τ → Except ε (List α))
    (narrowF : List α → Nat → Nat → Nat → Except ε (List α))
    (viewF : List α → Nat → Except ε β) (tF : β → Except ε β)
    (contiguousF : β → Except ε β) (toDevice : β → Except ε β)
    (txt : τ) (bsz : Nat) : Except ε β := do
  let data ← numericalize txt
  let nbatch := data.length / bsz
  let d ← narrowF data 0 0 (nbatch * bsz)
  let v ← viewF d bsz
  let tv ← tF v
  let cv ← contiguousF tv
  toDevice cv

/-- `TransformerModel.forward` with each external module call as a
fallible parameter, sequenced exactly as in the source; no call is
wrapped in a handler. -/
def tmForwardE {ε V : Type} (encoderF : V → Except ε V)
    (scaleF : V → Except ε V) (posEncF : V → Except ε V)
    (teF : V → Mat FVal → Except ε V) (decoderF : V → Except ε V)
    (st : TMState) (srcLen : Nat) (src : V) : Except ε (TMState × V) := do
  let s1 ← encoderF src
  let s2 ← scaleF s1
  let s3 ← posEncF s2
  let o1 ← teF s3 (tmMask st srcLen)
  let o2 ← decoderF o1
  pure (tmUpdatedState st srcLen, o2)

/-- The loop of `evaluate` with the external model application and
`criterion` as fallible parameters; the iteration-start list and the
running `total_loss` are explicit. -/
def evalLoopE {ε V : Type} (eval_model : List V → Except ε (List V))
    (crit : List V → List V → Except ε ℚ) (data_source : List V) :
    List Nat → ℚ → Except ε ℚ
  | [], total => Except.ok total
  | i :: rest, total => do
      let db := get_batch data_source i
      let out ← eval_model db.1
      let l ← crit out db.2
      evalLoopE eval_model crit data_source rest
        (total + ((db.1.length : ℚ)) * l)

/-- `evaluate` with fallible external calls: run the loop over
`range(0, data_source.size(0) - 1, bptt)`, then divide the total by
`len(data_source) - 1`. -/
def evaluateE {ε V : Type} (eval_model : List V → Except ε (List V))
    (crit : List V → List V → Except ε ℚ) (data_source : List V) :
    Except ε ℚ :=
  (evalLoopE eval_model crit data_source
      (evalIdxs data_source.length) 0).map
    (fun total => total / ((data_source.length : ℚ) - 1))

/-- The loop of `train` with the external calls as fallible parameters:
`optimizer.zero_grad()`, the model application (which may update the
model state), `criterion`, `loss.backward()` (which writes gradients
into the model state), `clip_grad_norm_`, `optimizer.step()`; `lossVal`
is `loss.item()`.  The iteration-start list, the optimizer state, the
model state and the running `total_loss` are explicit. -/
def trainLoopE {ε V O M L : Type} (zero_grad : O → Except ε O)
    (modelF : M → List V → Except ε (M × List V))
    (critF : List V → List V → Except ε L)
    (backwardF : L → M → Except ε M) (clipF : M → Except ε M)
    (stepF : O → M → Except ε (O × M)) (lossVal : L → ℚ)
    (train_data : List V) :
    List Nat → O → M → ℚ → Except ε (O × M × ℚ)
  | [], o, m, total => Except.ok (o, m, total)
  | i :: rest, o, m, total => do
      let db := get_batch train_data i
      let o1 ← zero_grad o
      let mo ← modelF m db.1
      let l ← critF mo.2 db.2
      let m2 ← backwardF l mo.1
      let m3 ← clipF m2
      let om ← stepF o1 m3
      trainLoopE zero_grad modelF critF backwardF clipF stepF lossVal
        train_data rest om.1 om.2 (total + lossVal l)

/-- C6: no function defined in the repository catches, retries, or
transforms an error.  For every external library call of `batchify`, of
`TransformerModel.forward`, of the `evaluate` loop (at any iteration,
i.e. for any remaining iteration list and accumulated total) and of the
`train` loop (likewise at any iteration, for any current optimizer and
model state): if that call raises `e` — all calls before it having
succeeded — the repository function returns exactly `e` to its caller. -/
theorem C6_errors_propagate_unchanged
    (ε τ α β V O M L : Type) (e : ε)
    (numericalize : τ → Except ε (List α))
    (narrowF : List α → Nat → Nat → Nat → Except ε (List α))
    (viewF : List α → Nat → Except ε β)
    (tF contiguousF toDevice : β → Except ε β)
    (txt : τ) (bsz : Nat) (data d : List α) (v tv cv : β)
    (encoderF scaleF posEncF : V → Except ε V)
    (teF : V → Mat FVal → Except ε V) (decoderF : V → Except ε V)
    (st : TMState) (srcLen : Nat) (src s1 s2 s3 o1 : V)
    (eval_model : List V → Except ε (List V))
    (crit : List V → List V → Except ε ℚ)
    (ds : List V) (i : Nat) (rest : List Nat) (total : ℚ) (outB : List V)
    (zero_grad : O → Except ε O)
    (modelF : M → List V → Except ε (M × List V))
    (critF : List V → List V → Except ε L)
    (backwardF : L → M → Except ε M) (clipF : M → Except ε M)
    (stepF : O → M → Except ε (O × M)) (lossVal : L → ℚ)
    (td : List V) (o : O) (m : M) (oz : O) (mo : M × List V) (lt : L)
    (m2 m3 : M) :
    (numericalize txt = Except.error e →
      batchifyE numericalize narrowF viewF tF contiguousF toDevice txt bsz =
        Except.error e) ∧
    (numericalize txt = Except.ok data →
      narrowF data 0 0 (data.length / bsz * bsz) = Except.error e →
      batchifyE numericalize narrowF viewF tF contiguousF toDevice txt bsz =
        Except.error e) ∧
    (numericalize txt = Except.ok data →
      narrowF data 0 0 (data.length / bsz * bsz) = Except.ok d →
      viewF d bsz = Except.error e →
      batchifyE numericalize narrowF viewF tF contiguousF toDevice txt bsz =
        Except.error e) ∧
    (numericalize txt = Except.ok data →
      narrowF data 0 0 (data.length / bsz * bsz) = Except.ok d →
      viewF d bsz = Except.ok v → tF v = Except.error e →
      batchifyE numericalize narrowF viewF tF contiguousF toDevice txt bsz =
        Except.error e) ∧
    (numericalize txt = Except.ok data →
      narrowF data 0 0 (data.length / bsz * bsz) = Except.ok d →
      viewF d bsz = Except.ok v → tF v = Except.ok tv →
      contiguousF tv = Except.error e →
      batchifyE numericalize narrowF viewF tF contiguousF toDevice txt bsz =
        Except.error e) ∧
    (numericalize txt = Except.ok data →
      narrowF data 0 0 (data.length / bsz * bsz) = Except.ok d →
      viewF d bsz = Except.ok v → tF v = Except.ok tv →
      contiguousF tv = Except.ok cv → toDevice cv = Except.error e →
      batchifyE numericalize narrowF viewF tF contiguousF toDevice txt bsz =
        Except.error e) ∧
    (encoderF src = Except.error e →
      tmForwardE encoderF scaleF posEncF teF decoderF st srcLen src =
        Except.error e) ∧
    (encoderF src = Except.ok s1 → scaleF s1 = Except.error e →
      tmForwardE encoderF scaleF posEncF teF decoderF st srcLen src =
        Except.error e) ∧
    (encoderF src = Except.ok s1 → scaleF s1 = Except.ok s2 →
      posEncF s2 = Except.error e →
      tmForwardE encoderF scaleF posEncF teF decoderF st srcLen src =
        Except.error e) ∧
    (encoderF src = Except.ok s1 → scaleF s1 = Except.ok s2 →
      posEncF s2 = Except.ok s3 →
      teF s3 (tmMask st srcLen) = Except.error e →
      tmForwardE encoderF scaleF posEncF teF decoderF st srcLen src =
        Except.error e) ∧
    (encoderF src = Except.ok s1 → scaleF s1 = Except.ok s2 →
      posEncF s2 = Except.ok s3 →
      teF s3 (tmMask st srcLen) = Except.ok o1 →
      decoderF o1 = Except.error e →
      tmForwardE encoderF scaleF posEncF teF decoderF st srcLen src =
        Except.error e) ∧
    (eval_model (get_batch ds i).1 = Except.error e →
      evalLoopE eval_model crit ds (i :: rest) total = Except.error e) ∧
    (eval_model (get_batch ds i).1 = Except.ok outB →
      crit outB (get_batch ds i).2 = Except.error e →
      evalLoopE eval_model crit ds (i :: rest) total = Except.error e) ∧
    (evalIdxs ds.length = i :: rest →
      eval_model (get_batch ds i).1 = Except.error e →
      evaluateE eval_model crit ds = Except.error e) ∧
    (zero_grad o = Except.error e →
      trainLoopE zero_grad modelF critF backwardF clipF stepF lossVal td
        (i :: rest) o m total = Except.error e) ∧
    (zero_grad o = Except.ok oz →
      modelF m (get_batch td i).1 = Except.error e →
      trainLoopE zero_grad modelF critF backwardF clipF stepF lossVal td
        (i :: rest) o m total = Except.error e) ∧
    (zero_grad o = Except.ok oz →
      modelF m (get_batch td i).1 = Except.ok mo →
      critF mo.2 (get_batch td i).2 = Except.error e →
      trainLoopE zero_grad modelF critF backwardF clipF stepF lossVal td
        (i :: rest) o m total = Except.error e) ∧
    (zero_grad o = Except.ok oz →
      modelF m (get_batch td i).1 = Except.ok mo →
      critF mo.2 (get_batch td i).2 = Except.ok lt →
      backwardF lt mo.1 = Except.error e →
      trainLoopE zero_grad modelF critF backwardF clipF stepF lossVal td
        (i :: rest) o m total = Except.error e) ∧
    (zero_grad o = Except.ok oz →
      modelF m (get_batch td i).1 = Except.ok mo →
      critF mo.2 (get_batch td i).2 = Except.ok lt →
      backwardF lt mo.1 = Except.ok m2 → clipF m2 = Except.error e →
      trainLoopE zero_grad modelF critF backwardF clipF stepF lossVal td
        (i :: rest) o m total = Except.error e) ∧
    (zero_grad o = Except.ok oz →
      modelF m (get_batch td i).1 = Except.ok mo →
      critF mo.2 (get_batch td i).2 = Except.ok lt →
      backwardF lt mo.1 = Except.ok m2 → clipF m2 = Except.ok m3 →
      stepF oz m3 = Except.error e →
      trainLoopE zero_grad modelF critF backwardF clipF stepF lossVal td
        (i :: rest) o m total = Except.error e) := by
  refine ⟨?_, ?_, ?_, ?_, ?_, ?_, ?_, ?_, ?_, ?_, ?_, ?_, ?_, ?_, ?_, ?_,
    ?_, ?_, ?_, ?_⟩ <;>
    (intros
     simp [batchifyE, tmForwardE, evalLoopE, evaluateE, trainLoopE,
       Bind.bind, Except.bind, Except.map, *])

/-- Witness for C6: a `numericalize` that raises error `7` makes
`batchify` return exactly that error. -/
theorem C6_errors_propagate_unchanged_witness :
    batchifyE (fun _ : Unit => (Except.error 7 : Except Nat (List Nat)))
      (fun d _ _ _ => Except.ok d) (fun d _ => Except.ok d) Except.ok
      Except.ok Except.ok () 2 = Except.error 7 :=
  (C6_errors_propagate_unchanged Nat Unit Nat (List Nat) Nat Nat Nat Nat 7
    (fun _ => Except.error 7) (fun d _ _ _ => Except.ok d)
    (fun d _ => Except.ok d) Except.ok Except.ok Except.ok () 2 [] [] []
    [] [] (fun _ => Except.ok 0) (fun _ => Except.ok 0)
    (fun _ => Except.ok 0) (fun w _ => Except.ok w) (fun _ => Except.ok 0)
    (tmInit 0) 0 0 0 0 0 0 (fun _ => Except.ok []) (fun _ _ => Except.ok 0)
    [] 0 [] 0 [] (fun q => Except.ok q) (fun q w => Except.ok (q, w))
    (fun _ _ => Except.ok 0) (fun _ q => Except.ok q)
    (fun q => Except.ok q) (fun q w => Except.ok (q, w)) (fun _ => 0) [] 0
    0 0 (0, []) 0 0 0).1 rfl

/-- Folding the loop body of `evaluate` is adding up the weighted
per-iteration terms. -/
theorem foldl_add_weighted (w : Nat → ℚ) (l : List Nat) (acc : ℚ) :
    l.foldl (fun a i => a + w i) acc = acc + (l.map w).sum := by
  induction l generalizing acc with
  | nil => simp
  | cons x xs ih => simp [List.foldl_cons, ih]; ring

/-- C8 (amended): the repository's functions do add glue computation of
their own beyond the external calls: `evaluate` returns the
length-weighted sum of the per-batch external criterion losses divided
by `len(data_source) - 1` — repository arithmetic that in general
coincides with none of the external outputs. -/
theorem C8_evaluate_weighted_average (V : Type)
    (eval_model : List V → List V) (crit : List V → List V → ℚ)
    (data_source : List V) :
    evaluateM eval_model crit data_source =
      (List.zipWith (fun a b => a * b) (evalBatchLens data_source)
        (evalCritValues eval_model crit data_source)).sum /
        ((data_source.length : ℚ) - 1) := by
  have hzip : List.zipWith (fun a b => a * b) (evalBatchLens data_source)
      (evalCritValues eval_model crit data_source) =
      (evalIdxs data_source.length).map (fun i =>
        ((get_batch data_source i).1.length : ℚ) *
          crit (eval_model (get_batch data_source i).1)
            (get_batch data_source i).2) := by
    simp only [evalBatchLens, evalCritValues, List.zipWith_map,
      List.zipWith_same]
  rw [hzip]
  simp only [evaluateM]
  rw [foldl_add_weighted (fun i =>
    ((get_batch data_source i).1.length : ℚ) *
      crit (eval_model (get_batch data_source i).1)
        (get_batch data_source i).2) (evalIdxs data_source.length) 0]
  rw [zero_add]
